import Mathlib

/-!
# Verification of the SeleniumAutomationFramework wrapper library

Shallow embedding of the repository's Python sources:

* `src/utils/logger.py`                    (class `Logger`)
* `src/utils/custom_selenium_webdriver.py` (class `CustomSeleniumWebDriver`)
* `src/utils/config_loader.py`             (class `ConfigLoader`)
* `src/utils/config_reader.py`             (class `ConfigReader`)
* `src/utils/webdriver_initializer.py`     (class `WebDriverInitializer`)
* `src/pages/base_page.py`                 (class `BasePage`)
* `src/tests/conftest.py`                  (fixture `driver`)

Pure control flow (try/except dispatch, dictionary lookups, string
formatting, branch selection) is embedded as executable Lean functions.
Effects of the external Selenium library are parameters of the embedding:
each wrapped library call is modelled by the outcome it produces
(a value or a raised exception kind).
-/

namespace Sel

/-- Exception kinds occurring in the sources: the Selenium exception
classes imported by the repository plus the Python built-in exceptions
its code can raise. -/
inductive ExcKind where
  | webDriverException
  | timeoutException
  | noSuchElementException
  | elementNotVisibleException
  | elementNotInteractableException
  | elementClickInterceptedException
  | unexpectedTagNameException
  | noSuchFrameException
  | noAlertPresentException
  | noSuchWindowException
  | invalidArgumentException
  | keyError
  | fileNotFoundError
  | attributeError
  | valueError
  deriving DecidableEq, Repr

/-- Proper superclasses of each exception kind, restricted to the kinds
modelled here.  In `selenium.common.exceptions` every imported Selenium
exception class is a (possibly indirect) subclass of `WebDriverException`;
the intermediate classes (`InvalidElementStateException`,
`InvalidSwitchToTargetException`, `NotFound`) are never named by the
repository's `except` clauses, so they are not modelled.  The Python
built-ins are unrelated to the Selenium hierarchy. -/
def properSuperclasses : ExcKind → List ExcKind
  | .webDriverException => []
  | .timeoutException => [.webDriverException]
  | .noSuchElementException => [.webDriverException]
  | .elementNotVisibleException => [.webDriverException]
  | .elementNotInteractableException => [.webDriverException]
  | .elementClickInterceptedException => [.webDriverException]
  | .unexpectedTagNameException => [.webDriverException]
  | .noSuchFrameException => [.webDriverException]
  | .noAlertPresentException => [.webDriverException]
  | .noSuchWindowException => [.webDriverException]
  | .invalidArgumentException => [.webDriverException]
  | .keyError => []
  | .fileNotFoundError => []
  | .attributeError => []
  | .valueError => []

/-- `isSubclass e c` holds when an exception of kind `e` is caught by an
`except c` clause: `e` is `c` itself or a subclass of `c`. -/
def isSubclass (e c : ExcKind) : Bool :=
  e == c || (properSuperclasses e).contains c

/-- Outcome of evaluating a Python expression or call: a value, or a
raised exception of some kind. -/
inductive PyResult (α : Type) where
  | ok (a : α)
  | exc (e : ExcKind)
  deriving DecidableEq, Repr

/-- The exception kind of a `PyResult`, when it raised one. -/
def PyResult.excKind : PyResult α → Option ExcKind
  | .ok _ => none
  | .exc e => some e

/-- Outcome of running a Python statement block to completion. -/
inductive PyRun where
  | normal
  | raised (e : ExcKind)
  deriving DecidableEq, Repr

/-! ## `src/utils/logger.py` — class `Logger`

The class body defines exactly the methods `debug`, `info`, `warning`,
`error` and `critical` (besides `__init__`). -/

/-- The methods defined by class `Logger` in `src/utils/logger.py`. -/
def loggerMethods : List String :=
  ["debug", "info", "warning", "error", "critical"]

/-- Calling a method named `name` on a `Logger` instance: it succeeds
when the class defines the method, and raises `AttributeError` otherwise
(Python attribute lookup on a missing attribute). -/
def loggerCall (name : String) : PyResult Unit :=
  if loggerMethods.contains name then .ok () else .exc .attributeError

/-! ## `src/utils/custom_selenium_webdriver.py` — class `CustomSeleniumWebDriver`

Each method wraps driver calls in `try/except` blocks whose handlers log
with `self.logger.error(...)` and then fall off the end of the method,
so the method returns `None`.  The underlying driver calls are modelled
by their outcomes (`find` for `driver.find_element`, `act` for
`element.click()` / `element.clear(); element.send_keys(text)`). -/

/-- Method `CustomSeleniumWebDriver.get_element`.
Body: `web_element = self.driver.find_element(*locator); return web_element`
inside `try`, with handlers `except NoSuchElementException` and
`except WebDriverException` that log the error and return normally
(no `raise`), i.e. the method returns `None`. -/
def csw_get_element {α : Type} (find : PyResult α) : PyResult (Option α) :=
  match find with
  | .ok w => .ok (some w)
  | .exc e =>
    if isSubclass e .noSuchElementException then
      .ok none   -- handler logs `self.logger.error(...)` and falls through
    else if isSubclass e .webDriverException then
      .ok none   -- handler logs and falls through
    else
      .exc e

/-- Method `CustomSeleniumWebDriver.click`.
Body: `web_element = self.get_element(locator); web_element.click()`
inside `try`, with handlers `except ElementNotInteractableException` and
`except WebDriverException` that log and return normally.
When `get_element` returned `None`, `None.click()` raises
`AttributeError`, which neither handler catches. -/
def csw_click {α : Type} (find : PyResult α) (act : Option ExcKind) : PyRun :=
  match csw_get_element find with
  | .exc e =>
    -- exception escaping `self.get_element` inside the `try` block
    if isSubclass e .elementNotInteractableException then .normal
    else if isSubclass e .webDriverException then .normal
    else .raised e
  | .ok none => .raised .attributeError   -- `None.click()`
  | .ok (some _) =>
    match act with
    | none => .normal
    | some e =>
      if isSubclass e .elementNotInteractableException then .normal
      else if isSubclass e .webDriverException then .normal
      else .raised e

/-- Method `CustomSeleniumWebDriver.type_text`.
Body: `web_element = self.get_element(locator); web_element.clear();
web_element.send_keys(text)` inside `try`, with the same two handlers as
`click`, each logging and returning normally. -/
def csw_type_text {α : Type} (find : PyResult α) (act : Option ExcKind) : PyRun :=
  match csw_get_element find with
  | .exc e =>
    if isSubclass e .elementNotInteractableException then .normal
    else if isSubclass e .webDriverException then .normal
    else .raised e
  | .ok none => .raised .attributeError   -- `None.clear()`
  | .ok (some _) =>
    match act with
    | none => .normal
    | some e =>
      if isSubclass e .elementNotInteractableException then .normal
      else if isSubclass e .webDriverException then .normal
      else .raised e

/-! ## JSON values and Python dictionaries

`json.load` produces nested dictionaries; the embedding models parsed
JSON values directly. -/

/-- A parsed JSON value. -/
inductive Json where
  | null
  | bool (b : Bool)
  | str (s : String)
  | num (n : Int)
  | arr (xs : List Json)
  | obj (kvs : List (String × Json))

/-- Python `d[k]` on a dictionary: the value, or a raised `KeyError`. -/
def dictGetItem (kvs : List (String × Json)) (k : String) : PyResult Json :=
  match kvs.lookup k with
  | some v => .ok v
  | none => .exc .keyError

/-- Python `d.get(k)` on a dictionary: the value, or `None`. -/
def dictGet (kvs : List (String × Json)) (k : String) : Option Json :=
  kvs.lookup k

/-! ## `src/utils/config_loader.py` — class `ConfigLoader`

```
def __init__(self, config_path='../config/config.json'):
    self.config_path = config_path
    self.config = self._load_config_file()
    self.logger = Logger()
```

`self.logger` is assigned only as the *last* statement of `__init__`,
but `_load_config_file` (called by the second statement) begins with
`self.logger.log_method_entry(...)`.  Instance attributes are modelled
by `Option` fields; reading an unassigned attribute raises
`AttributeError`. -/

/-- The instance state of a `ConfigLoader`: which attributes have been
assigned, and their values.  `loggerSet` records whether `self.logger`
has been assigned (its value is always a fresh `Logger`). -/
structure ConfigLoaderState where
  config_path : String
  config : List (String × Json)
  loggerSet : Bool

/-- `self.logger.<name>(...)` on a `ConfigLoader`: reading `self.logger`
raises `AttributeError` when the attribute is unassigned; otherwise the
method lookup on the `Logger` instance is `loggerCall`. -/
def selfLoggerCall (loggerSet : Bool) (name : String) : PyResult Unit :=
  if loggerSet then loggerCall name else .exc .attributeError

/-- Method `ConfigLoader._load_config_file`, given whether `self.logger`
is assigned, the configured path, and the file system (a map from paths
to parsed JSON file contents; `none` means the file does not exist).
The body first runs `self.logger.log_method_entry(...)`; then
`open`/`json.load` inside `try`, whose `except FileNotFoundError`
handler logs and re-raises `FileNotFoundError` with a formatted message.
(`json.JSONDecodeError` from a malformed file is not caught here; files
are modelled already parsed, which the claims do not need.) -/
def configLoader_load_config_file (loggerSet : Bool) (config_path : String)
    (fs : String → Option (List (String × Json))) :
    PyResult (List (String × Json)) :=
  match selfLoggerCall loggerSet "log_method_entry" with
  | .exc e => .exc e
  | .ok _ =>
    match fs config_path with
    | none => .exc .fileNotFoundError   -- caught, logged, re-raised as FileNotFoundError
    | some kvs => .ok kvs

/-- Constructor `ConfigLoader.__init__`: assigns `config_path`, then
calls `_load_config_file` with `self.logger` still unassigned, then
assigns `self.logger = Logger()`. -/
def configLoader_init (config_path : String)
    (fs : String → Option (List (String × Json))) : PyResult ConfigLoaderState :=
  match configLoader_load_config_file false config_path fs with
  | .exc e => .exc e
  | .ok kvs => .ok ⟨config_path, kvs, true⟩

/-- Method `ConfigLoader.get_specified_browser`.  The body first runs
`self.logger.log_method_entry(...)`; then `self.config['browser']`
inside `try`, whose `except KeyError` handler logs and re-raises
`KeyError` with a formatted message. -/
def configLoader_get_specified_browser (st : ConfigLoaderState) : PyResult Json :=
  match selfLoggerCall st.loggerSet "log_method_entry" with
  | .exc e => .exc e
  | .ok _ =>
    match dictGetItem st.config "browser" with
    | .ok v => .ok v
    | .exc e =>
      if isSubclass e .keyError then .exc .keyError   -- logged and re-raised
      else .exc e

/-- Method `ConfigLoader.get_browser_options`, same shape as
`get_specified_browser` but for the `browser_options` key. -/
def configLoader_get_browser_options (st : ConfigLoaderState) : PyResult Json :=
  match selfLoggerCall st.loggerSet "log_method_entry" with
  | .exc e => .exc e
  | .ok _ =>
    match dictGetItem st.config "browser_options" with
    | .ok v => .ok v
    | .exc e =>
      if isSubclass e .keyError then .exc .keyError
      else .exc e

/-! ## `src/utils/config_reader.py` — class `ConfigReader`

```
def __init__(self):
    self.abs_config_path = self._get_abs_config_path()
    self.config = self._load_config()
    self.logger = Logger()
```

`_get_abs_config_path` begins with `self.logger.info(...)`, but
`self.logger` is assigned only by the last statement of `__init__`. -/

/-- The instance state of a `ConfigReader`. -/
structure ConfigReaderState where
  config : List (String × Json)
  loggerSet : Bool

/-- Method `ConfigReader._get_abs_config_path`, given whether
`self.logger` is assigned.  Its first statement is
`self.logger.info(...)`; the path value itself is irrelevant here and is
modelled as `()`. -/
def configReader_get_abs_config_path (loggerSet : Bool) : PyResult Unit :=
  match selfLoggerCall loggerSet "info" with
  | .exc e => .exc e
  | .ok _ => .ok ()

/-- Method `ConfigReader._load_config`, given whether `self.logger` is
assigned and the (already parsed) contents of `config.json`; `none`
means the file does not exist.  The `except` handlers log and re-raise
`json.JSONDecodeError` / `FileNotFoundError`. -/
def configReader_load_config (loggerSet : Bool)
    (file : Option (List (String × Json))) : PyResult (List (String × Json)) :=
  match file with
  | none => .exc .fileNotFoundError    -- caught, logged, re-raised
  | some kvs =>
    match selfLoggerCall loggerSet "info" with   -- success-path log call
    | .exc e => .exc e
    | .ok _ => .ok kvs

/-- Constructor `ConfigReader.__init__`: calls `_get_abs_config_path`
and `_load_config` with `self.logger` still unassigned, then assigns
`self.logger = Logger()`. -/
def configReader_init (file : Option (List (String × Json))) :
    PyResult ConfigReaderState :=
  match configReader_get_abs_config_path false with
  | .exc e => .exc e
  | .ok _ =>
    match configReader_load_config false file with
    | .exc e => .exc e
    | .ok kvs => .ok ⟨kvs, true⟩

/-- Method `ConfigReader.get_browser_configurations`:
`self.config.get('browser_configurations')`, `raise KeyError` when the
result is `None` (after `self.logger.error(...)`), otherwise an info log
and the value. -/
def configReader_get_browser_configurations (st : ConfigReaderState) :
    PyResult Json :=
  match dictGet st.config "browser_configurations" with
  | none =>
    match selfLoggerCall st.loggerSet "error" with
    | .exc e => .exc e
    | .ok _ => .exc .keyError
  | some v =>
    match selfLoggerCall st.loggerSet "info" with
    | .exc e => .exc e
    | .ok _ => .ok v

/-- Python truthiness of `browser_configurations is None` followed by
`.get('headless')`: `ConfigReader.get_headless_mode` calls
`get_browser_configurations`, then `.get('headless')` on the resulting
dictionary, raising `KeyError` when that is `None`.  A non-dictionary
value for `browser_configurations` would raise `AttributeError` at the
`.get` call. -/
def configReader_get_headless_mode (st : ConfigReaderState) : PyResult Json :=
  match configReader_get_browser_configurations st with
  | .exc e => .exc e
  | .ok v =>
    match v with
    | .obj kvs =>
      match dictGet kvs "headless" with
      | none =>
        match selfLoggerCall st.loggerSet "error" with
        | .exc e => .exc e
        | .ok _ => .exc .keyError
      | some hm =>
        match selfLoggerCall st.loggerSet "info" with
        | .exc e => .exc e
        | .ok _ => .ok hm
    | _ => .exc .attributeError

/-- Method `ConfigReader.get_specified_browser`: same shape as
`get_headless_mode` for the `browser` key. -/
def configReader_get_specified_browser (st : ConfigReaderState) : PyResult Json :=
  match configReader_get_browser_configurations st with
  | .exc e => .exc e
  | .ok v =>
    match v with
    | .obj kvs =>
      match dictGet kvs "browser" with
      | none =>
        match selfLoggerCall st.loggerSet "error" with
        | .exc e => .exc e
        | .ok _ => .exc .keyError
      | some b =>
        match selfLoggerCall st.loggerSet "info" with
        | .exc e => .exc e
        | .ok _ => .ok b
    | _ => .exc .attributeError

/-! ## `src/tests/conftest.py` — the `driver` pytest fixture

```
logger = Logger()

@pytest.fixture(scope='session')
def driver():
    logger.log_method_entry('The Driver Fixture')
    webdriver = None
    try:
        webdriver_initializer = WebDriverInitializer()
        webdriver = webdriver_initializer.initialize_webdriver()
        yield webdriver
    except WebDriverException as e:
        raise WebDriverException(...)
    finally:
        if webdriver is not None:
            webdriver.quit()
```

The module-level `Logger()` constructs fine; the fixture's first
statement is a method call on it.  `initResult` is the outcome of
`WebDriverInitializer(); initialize_webdriver()`, and `testExc` the
exception (if any) raised by the test body, which pytest throws into the
generator at the `yield` point.  The second component counts calls to
`webdriver.quit()`. -/

/-- The `driver` fixture, run to completion around one test. -/
def driver_fixture (initResult : PyResult Nat) (testExc : Option ExcKind) :
    PyRun × Nat :=
  match loggerCall "log_method_entry" with
  | .exc e => (.raised e, 0)   -- raised before `try`; no driver, no quit
  | .ok _ =>
    -- webdriver = None; enter try
    match initResult with
    | .exc e =>
      -- initialization raised: `webdriver` still None, so `finally` skips quit
      if isSubclass e .webDriverException then (.raised .webDriverException, 0)
      else (.raised e, 0)
    | .ok _ =>
      -- webdriver bound; yield; the test runs
      match testExc with
      | none => (.normal, 1)   -- resume after yield; finally quits once
      | some e =>
        -- thrown into the generator at the yield point; finally still quits once
        if isSubclass e .webDriverException then (.raised .webDriverException, 1)
        else (.raised e, 1)

/-! ## `src/utils/logger.py` — handler installation in `Logger.__init__`

```
self.logger = logging.getLogger(__name__)
...
console_handler = logging.StreamHandler()
...
file_handler = logging.FileHandler(log_file_name)
...
if not self.logger.handlers:
    self.logger.addHandler(console_handler)
    self.logger.addHandler(file_handler)
```

`logging.getLogger(__name__)` returns the one process-wide logger for
the module, so the handler list is shared state across constructions.
Handlers are tagged with the index of the construction that created
them. -/

/-- The kind of a handler installed by `Logger.__init__`. -/
inductive HandlerKind where
  | console
  | logfile
  deriving DecidableEq, Repr

/-- A handler, tagged by the construction (0-based) that created it. -/
structure LogHandler where
  kind : HandlerKind
  madeBy : Nat
  deriving DecidableEq, Repr

/-- One run of `Logger.__init__` (the `n`-th construction) acting on the
shared handler list: the guard `if not self.logger.handlers` adds the
freshly created console and file handlers only when the list is empty. -/
def logger_init_handlers (n : Nat) (hs : List LogHandler) : List LogHandler :=
  if hs.isEmpty then hs ++ [⟨.console, n⟩, ⟨.logfile, n⟩] else hs

/-- The shared handler list after `n` constructions of `Logger` in one
process, starting from the fresh (empty) logger. -/
def handlersAfter : Nat → List LogHandler
  | 0 => []
  | n + 1 => logger_init_handlers n (handlersAfter n)

/-! ## Formatted messages

A Python f-string concatenates literal chunks and interpolated values;
a formatted message is embedded as the list of chunks, in order.
`msgString` is the concatenated Python string. -/

/-- The rendered string of a chunk list. -/
def msgString (chunks : List String) : String := String.join chunks

/-- An exception carrying a formatted message. -/
structure PyExcMsg where
  kind : ExcKind
  msg : List String
  deriving DecidableEq, Repr

/-! ## `src/utils/webdriver_initializer.py` — class `WebDriverInitializer`

`__init__` lowercases the configured browser name:
`self.browser = self.config.get_specified_browser().lower()`.
(Reaching that line through `ConfigLoader` is itself broken by the
logger defect settled under claim C4; the browser-options dictionary is
therefore a parameter here, so that the dispatch logic of
`_get_browser_options` / `initialize_webdriver` can be verified.) -/

/-- ASCII lowercasing of one character, as Python `str.lower` acts on
the ASCII range (the browser identifiers at issue are ASCII; Python
additionally lowercases non-ASCII letters, which no comparison in this
module can observe differently). -/
def pyLowerChar (c : Char) : Char :=
  if 'A' ≤ c ∧ c ≤ 'Z' then Char.ofNat (c.toNat + 32) else c

/-- Python `configured.lower()`. -/
def pyLower (s : String) : String := ⟨s.data.map pyLowerChar⟩

/-- `self.browser` as computed by `WebDriverInitializer.__init__` from
the configured browser string. -/
def wdi_browser (configured : String) : String := pyLower configured

/-- The options class instantiated by `_get_browser_options`. -/
inductive OptionsKind where
  | chromeOptions
  | firefoxOptions
  | edgeOptions
  deriving DecidableEq, Repr

/-- The driver constructor branch taken by `initialize_webdriver`. -/
inductive DriverBranch where
  | chrome      -- webdriver.Chrome(service=ChromeService(ChromeDriverManager().install()), ...)
  | firefox     -- webdriver.Firefox(service=FirefoxService(GeckoDriverManager().install()), ...)
  | edge        -- webdriver.Edge(service=EdgeService(EdgeChromiumDriverManager().install()), ...)
  | chromium    -- webdriver.Chrome(..., ChromeType.CHROMIUM)
  | brave       -- webdriver.Chrome(..., ChromeType.BRAVE)
  deriving DecidableEq, Repr

/-- Python `str(e)` for a `KeyError` shows the `repr` of its argument:
the message in quotes. -/
def keyErrorStr (msg : List String) : List String :=
  ["\x27"] ++ msg ++ ["\x27"]

/-- Method `WebDriverInitializer._get_browser_options`.
Body (inside `try`):
`browser_options = self.config.get_browser_options()[self.browser]`,
then an if-chain on `self.browser` instantiating the options class, with
`else: raise KeyError(f'The browser {self.browser} is not supported.')`,
then `options.add_argument(...)` for each configured argument.
The `except KeyError` handler re-raises
`KeyError(f'The browser_options option wasn\x27t found in the
config.json file. Error: {e}')` — it catches both the dictionary lookup
failure and the unsupported-browser `raise`. -/
def wdi_get_browser_options (browser : String)
    (opts : List (String × List String)) :
    Except PyExcMsg (OptionsKind × List String) :=
  let wrap : List String → PyExcMsg := fun inner =>
    ⟨.keyError,
      ["The browser_options option wasn\x27t found in the config.json file. Error: "]
        ++ keyErrorStr inner⟩
  match opts.lookup browser with
  | none => .error (wrap [browser])   -- str(KeyError(self.browser)) is the quoted key
  | some browser_options =>
    if browser == "chrome" then .ok (.chromeOptions, browser_options)
    else if browser == "firefox" then .ok (.firefoxOptions, browser_options)
    else if browser == "edge" then .ok (.edgeOptions, browser_options)
    else if browser == "chromium" then .ok (.chromeOptions, browser_options)
    else if browser == "brave" then .ok (.chromeOptions, browser_options)
    else .error (wrap ["The browser ", browser, " is not supported."])

/-- Method `WebDriverInitializer.initialize_webdriver`.
Body (inside `try`): `options = self._get_browser_options()`, then an
if-chain on `self.browser` calling the matching driver constructor, with
`else: raise KeyError(f'The browser {self.browser} is not supported.')`.
The sole handler is `except WebDriverException`, so the `KeyError` from
`_get_browser_options` (and from the `else` branch) propagates.  The
result records which constructor branch is invoked; failures of the
external constructor call itself (which the handler would wrap in a new
`WebDriverException`) are outside the dispatch being verified. -/
def wdi_initialize_webdriver (browser : String)
    (opts : List (String × List String)) : Except PyExcMsg DriverBranch :=
  match wdi_get_browser_options browser opts with
  | .error e => .error e
  | .ok _ =>
    if browser == "chrome" then .ok .chrome
    else if browser == "firefox" then .ok .firefox
    else if browser == "edge" then .ok .edge
    else if browser == "chromium" then .ok .chromium
    else if browser == "brave" then .ok .brave
    else .error ⟨.keyError, ["The browser ", browser, " is not supported."]⟩

/-- The pipeline from the configured browser string: lowercase in
`__init__`, then `initialize_webdriver`. -/
def wdi_initializeFor (configured : String)
    (opts : List (String × List String)) : Except PyExcMsg DriverBranch :=
  wdi_initialize_webdriver (wdi_browser configured) opts

/-! ## `src/pages/base_page.py` — class `BasePage`

Every public method has the same shape: a
`self.logger.log_method_entry(...)` call, then a `try` block doing the
driver work, then `except` handlers that call `self.logger.error(...)`
and `raise` a new exception with an f-string message.  The embedding
records, per method, the ordered handler list (caught class, raised
class, raised message) and the interpolated f-string messages as lists
of literal chunks and argument references. -/

/-- The parameters of `BasePage` methods that can be interpolated into
messages (`err` stands for the caught exception `e` itself). -/
inductive ArgName where
  | locator
  | timeout
  | text
  | value
  | index
  | url
  | handle
  | keys
  | source_locator
  | target_locator
  | err
  deriving DecidableEq, Repr

/-- One piece of an f-string: a literal chunk or an interpolated
argument. -/
inductive MsgPart where
  | lit (s : String)
  | arg (a : ArgName)
  deriving DecidableEq, Repr

/-- One `except` clause of a `BasePage` method: the caught class,
whether the handler's first statement is a `self.logger.error(...)`
call, the class of the newly raised exception, and its message. -/
structure BPHandler where
  caught : ExcKind
  logsError : Bool
  raisedKind : ExcKind
  raiseMsg : List MsgPart
  deriving DecidableEq, Repr

/-- The public methods of `BasePage`, in source order. -/
inductive BPOp where
  | navigate_to
  | find_element
  | find_elements
  | get_current_url
  | go_back
  | go_forward
  | refresh
  | get_title
  | click
  | send_keys
  | quit
  | close
  | is_dropdown_multiple_selections
  | select_dropdown_by_visible_text
  | select_dropdown_by_value
  | select_dropdown_by_index
  | get_all_dropdown_options
  | get_selected_dropdown_option
  | deselect_all_dropdown_options
  | deselect_dropdown_by_index
  | deselect_dropdown_by_value
  | deselect_dropdown_by_visible_text
  | switch_to_iframe
  | switch_to_default_content
  | accept_alert
  | dismiss_alert
  | get_alert_text
  | send_keys_to_alert
  | get_current_window_handle
  | get_all_window_handles
  | switch_to_window
  | perform_hover_over_element_action_chain
  | perform_drag_and_drop_action_chain
  | perform_double_click_action_chain
  | perform_right_click_action_chain
  | perform_click_and_hold_action_chain
  | perform_release_action_chain
  | perform_send_keys_action_chain
  deriving DecidableEq, Repr

/-- The `UnexpectedTagNameException` re-raise message shared verbatim by
all ten dropdown methods. -/
def unexpectedTagMsg : List MsgPart :=
  [.lit "The Select class received an unexpected WebElement that has this locator: ",
   .arg .locator, .lit "."]

/-- The ordered `except` clauses of each public `BasePage` method,
transcribed from `src/pages/base_page.py`.  Every handler's first
statement is `self.logger.error(...)` (recorded by `logsError`), and
each re-raises a fresh exception of the same class as it caught, with
the f-string message transcribed chunk by chunk. -/
def opHandlers : BPOp → List BPHandler
  | .navigate_to =>
    [⟨.webDriverException, true, .webDriverException,
      [.lit "Failed to navigate to this URL: ", .arg .url, .lit "."]⟩]
  | .find_element =>
    [⟨.timeoutException, true, .timeoutException,
      [.lit "The WebElement that has this locator: ", .arg .locator,
       .lit " wasn\x27t found or wasn\x27t visible within ", .arg .timeout,
       .lit " seconds."]⟩,
     ⟨.noSuchElementException, true, .noSuchElementException,
      [.lit "No such a WebElement that has this locator: ", .arg .locator,
       .lit " in the DOM."]⟩,
     ⟨.elementNotVisibleException, true, .elementNotVisibleException,
      [.lit "The WebElement that has this locator: ", .arg .locator,
       .lit " wasn\x27t visible."]⟩,
     ⟨.webDriverException, true, .webDriverException,
      [.lit "Unable to find the WebElement that has this locator: ",
       .arg .locator, .lit "."]⟩]
  | .find_elements =>
    [⟨.timeoutException, true, .timeoutException,
      [.lit "No WebElements that have this locator: ", .arg .locator,
       .lit " were found or weren\x27t visible within ", .arg .timeout,
       .lit " seconds."]⟩,
     ⟨.noSuchElementException, true, .noSuchElementException,
      [.lit "No such WebElements that have this locator: ", .arg .locator,
       .lit " found in the DOM."]⟩,
     ⟨.elementNotVisibleException, true, .elementNotVisibleException,
      [.lit "The WebElements that have this locator: ", .arg .locator,
       .lit " weren\x27t visible."]⟩,
     ⟨.webDriverException, true, .webDriverException,
      [.lit "Unable to find the WebElements that have this locator: ",
       .arg .locator, .lit "."]⟩]
  | .get_current_url =>
    [⟨.webDriverException, true, .webDriverException,
      [.lit "Unable to get the current URL."]⟩]
  | .go_back =>
    [⟨.webDriverException, true, .webDriverException,
      [.lit "Unable to navigate to the previous page."]⟩]
  | .go_forward =>
    [⟨.webDriverException, true, .webDriverException,
      [.lit "Unable to navigate to the next page"]⟩]
  | .refresh =>
    [⟨.webDriverException, true, .webDriverException,
      [.lit "Unable to refresh the current page."]⟩]
  | .get_title =>
    [⟨.webDriverException, true, .webDriverException,
      [.lit "Unable to get the title of the current page."]⟩]
  | .click =>
    [⟨.timeoutException, true, .timeoutException,
      [.lit "No WebElement that has this locator: ", .arg .locator,
       .lit " was found or wasn\x27t clickable within ", .arg .timeout,
       .lit " seconds."]⟩,
     ⟨.noSuchElementException, true, .noSuchElementException,
      [.lit "No such a WebElement that has this locator: ", .arg .locator,
       .lit " found in the DOM."]⟩,
     ⟨.elementNotInteractableException, true, .elementNotInteractableException,
      [.lit "The WebElement that has this locator: ", .arg .locator,
       .lit " wasn\x27t interactable."]⟩,
     ⟨.elementClickInterceptedException, true, .elementClickInterceptedException,
      [.lit "The WebElement that has this locator: ", .arg .locator,
       .lit " couldn\x27t be clicked."]⟩,
     ⟨.webDriverException, true, .webDriverException,
      [.lit "Unable to click on the WebElement with this ", .arg .locator,
       .lit "."]⟩]
  | .send_keys =>
    [⟨.noSuchElementException, true, .noSuchElementException,
      [.lit "No such a WebElement that has this locator: ", .arg .locator,
       .lit " found in the DOM."]⟩,
     ⟨.elementNotInteractableException, true, .elementNotInteractableException,
      [.lit "The WebElement that has this locator: ", .arg .locator,
       .lit " wasn\x27t interactable."]⟩,
     ⟨.webDriverException, true, .webDriverException,
      [.lit "Unable to send this text: ", .arg .text,
       .lit " into a WebElement that has this locator: ", .arg .locator,
       .lit "."]⟩]
  | .quit =>
    [⟨.webDriverException, true, .webDriverException,
      [.lit "Unable to close all browser windows and ending the WebDriver session."]⟩]
  | .close =>
    [⟨.webDriverException, true, .webDriverException,
      [.lit "Unable to close the current window."]⟩]
  | .is_dropdown_multiple_selections =>
    [⟨.unexpectedTagNameException, true, .unexpectedTagNameException, unexpectedTagMsg⟩,
     ⟨.webDriverException, true, .webDriverException,
      [.lit "Unable to check if the dropdown supports multiple selections or not."]⟩]
  | .select_dropdown_by_visible_text =>
    [⟨.unexpectedTagNameException, true, .unexpectedTagNameException, unexpectedTagMsg⟩,
     ⟨.webDriverException, true, .webDriverException,
      [.lit "Unable to select a dropdown option by this visible text: ",
       .arg .text, .lit "."]⟩]
  | .select_dropdown_by_value =>
    [⟨.unexpectedTagNameException, true, .unexpectedTagNameException, unexpectedTagMsg⟩,
     ⟨.webDriverException, true, .webDriverException,
      [.lit "Unable to select a dropdown option by this value: ",
       .arg .value, .lit "."]⟩]
  | .select_dropdown_by_index =>
    [⟨.unexpectedTagNameException, true, .unexpectedTagNameException, unexpectedTagMsg⟩,
     ⟨.webDriverException, true, .webDriverException,
      [.lit "Unable to select a dropdown option by this index",
       .arg .index, .lit "."]⟩]
  | .get_all_dropdown_options =>
    [⟨.unexpectedTagNameException, true, .unexpectedTagNameException, unexpectedTagMsg⟩,
     ⟨.webDriverException, true, .webDriverException,
      [.lit "Unable to get all dropdown options."]⟩]
  | .get_selected_dropdown_option =>
    [⟨.unexpectedTagNameException, true, .unexpectedTagNameException, unexpectedTagMsg⟩,
     ⟨.webDriverException, true, .webDriverException,
      [.lit "Unable to get the currently selected dropdown option."]⟩]
  | .deselect_all_dropdown_options =>
    [⟨.unexpectedTagNameException, true, .unexpectedTagNameException, unexpectedTagMsg⟩,
     ⟨.webDriverException, true, .webDriverException,
      [.lit "Unable to deselect all selected options in the multi-select dropdown."]⟩]
  | .deselect_dropdown_by_index =>
    [⟨.unexpectedTagNameException, true, .unexpectedTagNameException, unexpectedTagMsg⟩,
     ⟨.webDriverException, true, .webDriverException,
      [.lit "Unable to deselect a dropdown option by this index: ",
       .arg .index, .lit "."]⟩]
  | .deselect_dropdown_by_value =>
    [⟨.unexpectedTagNameException, true, .unexpectedTagNameException, unexpectedTagMsg⟩,
     ⟨.webDriverException, true, .webDriverException,
      [.lit "Unable to deselect a dropdown option by this value: ",
       .arg .value, .lit "."]⟩]
  | .deselect_dropdown_by_visible_text =>
    [⟨.unexpectedTagNameException, true, .unexpectedTagNameException, unexpectedTagMsg⟩,
     ⟨.webDriverException, true, .webDriverException,
      [.lit "Unable to select a dropdown option by this visible text: ",
       .arg .text, .lit "."]⟩]
  | .switch_to_iframe =>
    [⟨.timeoutException, true, .timeoutException,
      [.lit "The IFrame wasn\x27t available within ", .arg .timeout,
       .lit " seconds."]⟩,
     ⟨.noSuchFrameException, true, .noSuchFrameException,
      [.lit "No such an IFrame that has this locator: ", .arg .locator,
       .lit " in the DOM."]⟩,
     ⟨.webDriverException, true, .webDriverException,
      [.lit "Unable to switch to IFrame that has this locator: ",
       .arg .locator, .lit "."]⟩]
  | .switch_to_default_content =>
    [⟨.webDriverException, true, .webDriverException,
      [.lit "Unable to switch back to the default content."]⟩]
  | .accept_alert =>
    [⟨.timeoutException, true, .timeoutException,
      [.lit "The alert wasn\x27t present within ", .arg .timeout,
       .lit " seconds."]⟩,
     ⟨.noAlertPresentException, true, .noAlertPresentException,
      [.lit "No alert was present to accept."]⟩,
     ⟨.webDriverException, true, .webDriverException,
      [.lit "Unable to accept the Alert."]⟩]
  | .dismiss_alert =>
    [⟨.timeoutException, true, .timeoutException,
      [.lit "The alert was not present within ", .arg .timeout,
       .lit " seconds."]⟩,
     ⟨.noAlertPresentException, true, .noAlertPresentException,
      [.lit "No alert was present to dismiss."]⟩,
     ⟨.webDriverException, true, .webDriverException,
      [.lit "Unable to dismiss the Alert."]⟩]
  | .get_alert_text =>
    [⟨.timeoutException, true, .timeoutException,
      [.lit "The alert was not present within ", .arg .timeout,
       .lit " seconds."]⟩,
     ⟨.noAlertPresentException, true, .noAlertPresentException,
      [.lit "No alert was present."]⟩,
     ⟨.webDriverException, true, .webDriverException,
      [.lit "Unable to get the alert text."]⟩]
  | .send_keys_to_alert =>
    [⟨.timeoutException, true, .timeoutException,
      [.lit "The alert wasn\x27t presented within ", .arg .timeout,
       .lit " seconds to send this text: ", .arg .text, .lit " to it."]⟩,
     ⟨.noAlertPresentException, true, .noAlertPresentException,
      [.lit "No alert is presented to send this text: ", .arg .text,
       .lit " to it."]⟩,
     ⟨.webDriverException, true, .webDriverException,
      [.lit "Unable to send this text: ", .arg .text,
       .lit " to a prompt alert."]⟩]
  | .get_current_window_handle =>
    [⟨.noSuchWindowException, true, .noSuchWindowException,
      [.lit "No such opened window to get its handle."]⟩,
     ⟨.webDriverException, true, .webDriverException,
      [.lit "Unable to get the current window handle."]⟩]
  | .get_all_window_handles =>
    [⟨.noSuchWindowException, true, .noSuchWindowException,
      [.lit "No windows were opened."]⟩,
     ⟨.webDriverException, true, .webDriverException,
      [.lit "Unable to get all window handles."]⟩]
  | .switch_to_window =>
    [⟨.noSuchWindowException, true, .noSuchWindowException,
      [.lit "The specified window didn\x27t exist or was closed."]⟩,
     ⟨.webDriverException, true, .webDriverException,
      [.lit "Unable to switch to this ", .arg .handle, .lit " window."]⟩]
  | .perform_hover_over_element_action_chain =>
    [⟨.elementNotInteractableException, true, .elementNotInteractableException,
      [.lit "The WebElement was present but wasn\x27t interactable to perform the hover over a WebElement ActionChain."]⟩,
     ⟨.webDriverException, true, .webDriverException,
      [.lit "Unable to perform the hover over ActionChain over this WebElement that has this locator: ",
       .arg .locator, .lit "."]⟩]
  | .perform_drag_and_drop_action_chain =>
    [⟨.elementNotInteractableException, true, .elementNotInteractableException,
      [.lit "One of these WebElements (The source WebElement that has this locator: ",
       .arg .source_locator,
       .lit ", and the target WebElement that has this locator: ",
       .arg .target_locator,
       .lit ") wasn\x27t interactable to perform the drag and drop ActionChain. "]⟩,
     ⟨.webDriverException, true, .webDriverException,
      [.lit "Unable to perform the drag and drop ActionChain with these WebElements: (The source WebElement that has this locator: ",
       .arg .source_locator,
       .lit ", and the target WebElement that has this locator: ",
       .arg .target_locator, .lit ")."]⟩]
  | .perform_double_click_action_chain =>
    [⟨.elementNotInteractableException, true, .elementNotInteractableException,
      [.lit "The WebElement that has this locator: ", .arg .locator,
       .lit " was present but wasn\x27t interactable to perform the double click ActionChain."]⟩,
     ⟨.webDriverException, true, .webDriverException,
      [.lit "Unable to perform the double click ActionChain on this WebElement that has this locator: ",
       .arg .locator, .lit "."]⟩]
  | .perform_right_click_action_chain =>
    [⟨.elementNotInteractableException, true, .elementNotInteractableException,
      [.lit "The WebElement that has this locator: ", .arg .locator,
       .lit " was present but wasn\x27t interactable to perform the right click ActionChain."]⟩,
     ⟨.webDriverException, true, .webDriverException,
      [.lit "Unable to perform the right click ActionChain on this WebElement that has this locator: ",
       .arg .locator, .lit "."]⟩]
  | .perform_click_and_hold_action_chain =>
    [⟨.elementNotInteractableException, true, .elementNotInteractableException,
      [.lit "The WebElement that has this locator: ", .arg .locator,
       .lit " was present but wasn\x27t interactable to perform the click and hold ActionChain."]⟩,
     ⟨.webDriverException, true, .webDriverException,
      [.lit "Unable to perform the click and hold ActionChain on this WebElement that has this locator: ",
       .arg .locator, .lit "."]⟩]
  | .perform_release_action_chain =>
    [⟨.elementNotInteractableException, true, .elementNotInteractableException,
      [.lit "The WebElement that has this locator: ", .arg .locator,
       .lit " was present but wasn\x27t interactable to perform the release ActionChain."]⟩,
     ⟨.webDriverException, true, .webDriverException,
      [.lit "Unable to perform the release ActionChain on this WebElement that has this locator: ",
       .arg .locator, .lit "."]⟩]
  | .perform_send_keys_action_chain =>
    [⟨.webDriverException, true, .webDriverException,
      [.lit "Unable to send these keys: ", .arg .keys]⟩]

/-- The locator/value-style parameters each public method receives
(from the method signatures; the `timeout` parameter is a duration, not
a locator or value). -/
def opSubjectArgs : BPOp → List ArgName
  | .navigate_to => [.url]
  | .find_element => [.locator]
  | .find_elements => [.locator]
  | .get_current_url => []
  | .go_back => []
  | .go_forward => []
  | .refresh => []
  | .get_title => []
  | .click => [.locator]
  | .send_keys => [.locator, .text]
  | .quit => []
  | .close => []
  | .is_dropdown_multiple_selections => [.locator]
  | .select_dropdown_by_visible_text => [.locator, .text]
  | .select_dropdown_by_value => [.locator, .value]
  | .select_dropdown_by_index => [.locator, .index]
  | .get_all_dropdown_options => [.locator]
  | .get_selected_dropdown_option => [.locator]
  | .deselect_all_dropdown_options => [.locator]
  | .deselect_dropdown_by_index => [.locator, .index]
  | .deselect_dropdown_by_value => [.locator, .value]
  | .deselect_dropdown_by_visible_text => [.locator, .text]
  | .switch_to_iframe => [.locator]
  | .switch_to_default_content => []
  | .accept_alert => []
  | .dismiss_alert => []
  | .get_alert_text => []
  | .send_keys_to_alert => [.text]
  | .get_current_window_handle => []
  | .get_all_window_handles => []
  | .switch_to_window => [.handle]
  | .perform_hover_over_element_action_chain => [.locator]
  | .perform_drag_and_drop_action_chain => [.source_locator, .target_locator]
  | .perform_double_click_action_chain => [.locator]
  | .perform_right_click_action_chain => [.locator]
  | .perform_click_and_hold_action_chain => [.locator]
  | .perform_release_action_chain => [.locator]
  | .perform_send_keys_action_chain => [.keys]

/-- The handlers whose re-raise message interpolates none of the
method's locator/value parameters, found by inspection of the message
tables above. -/
def subjectOmittingHandlers : List (BPOp × ExcKind) :=
  [(.is_dropdown_multiple_selections, .webDriverException),
   (.get_all_dropdown_options, .webDriverException),
   (.get_selected_dropdown_option, .webDriverException),
   (.deselect_all_dropdown_options, .webDriverException),
   (.switch_to_iframe, .timeoutException),
   (.switch_to_window, .noSuchWindowException),
   (.perform_hover_over_element_action_chain, .elementNotInteractableException)]

/-- The per-handler property of the amended claim C2: the handler logs
at error level, re-raises the caught class (or the generic
`WebDriverException`), and — except for the handlers listed in
`subjectOmittingHandlers` — its message interpolates at least one of
the method's locator/value parameters (vacuous for methods that take
none). -/
def handlerOk (op : BPOp) (h : BPHandler) : Bool :=
  h.logsError &&
  (h.raisedKind == h.caught || h.raisedKind == .webDriverException) &&
  (subjectOmittingHandlers.contains (op, h.caught) ||
    (opSubjectArgs op).isEmpty ||
    (opSubjectArgs op).any (fun a => h.raiseMsg.contains (.arg a)))

/-- Python `try/except` dispatch: a raised exception of kind `e` is
handled by the first `except` clause whose class it is a subclass of;
the translated kind is what the handler re-raises, and an unmatched
exception propagates unchanged. -/
def bpTranslate (op : BPOp) (e : ExcKind) : ExcKind :=
  match (opHandlers op).find? (fun h => isSubclass e h.caught) with
  | some h => h.raisedKind
  | none => e

/-- The shared body shape of the four multi-select deselect methods
(`deselect_all_dropdown_options`, `deselect_dropdown_by_index`,
`deselect_dropdown_by_value`, `deselect_dropdown_by_visible_text`):
inside the `try` block, when `self.is_dropdown_multiple_selections(locator)`
returns `False`, the method logs and executes
`raise InvalidArgumentException(...)` — still inside the `try` — whose
exception then goes through the method's own `except` dispatch.
`none` means the check passed and the `Select(...).deselect_*` call
proceeds. -/
def deselectOutcome (op : BPOp) (isMultiple : Bool) : Option ExcKind :=
  if isMultiple then none
  else some (bpTranslate op .invalidArgumentException)

/-- The first statement of each public `BasePage` method: the name of
the logger method it calls (from the first line of every method body,
`self.logger.log_method_entry(self.<method>.__name__)`). -/
def bpFirstLoggerCall : BPOp → String
  | .navigate_to => "log_method_entry"
  | .find_element => "log_method_entry"
  | .find_elements => "log_method_entry"
  | .get_current_url => "log_method_entry"
  | .go_back => "log_method_entry"
  | .go_forward => "log_method_entry"
  | .refresh => "log_method_entry"
  | .get_title => "log_method_entry"
  | .click => "log_method_entry"
  | .send_keys => "log_method_entry"
  | .quit => "log_method_entry"
  | .close => "log_method_entry"
  | .is_dropdown_multiple_selections => "log_method_entry"
  | .select_dropdown_by_visible_text => "log_method_entry"
  | .select_dropdown_by_value => "log_method_entry"
  | .select_dropdown_by_index => "log_method_entry"
  | .get_all_dropdown_options => "log_method_entry"
  | .get_selected_dropdown_option => "log_method_entry"
  | .deselect_all_dropdown_options => "log_method_entry"
  | .deselect_dropdown_by_index => "log_method_entry"
  | .deselect_dropdown_by_value => "log_method_entry"
  | .deselect_dropdown_by_visible_text => "log_method_entry"
  | .switch_to_iframe => "log_method_entry"
  | .switch_to_default_content => "log_method_entry"
  | .accept_alert => "log_method_entry"
  | .dismiss_alert => "log_method_entry"
  | .get_alert_text => "log_method_entry"
  | .send_keys_to_alert => "log_method_entry"
  | .get_current_window_handle => "log_method_entry"
  | .get_all_window_handles => "log_method_entry"
  | .switch_to_window => "log_method_entry"
  | .perform_hover_over_element_action_chain => "log_method_entry"
  | .perform_drag_and_drop_action_chain => "log_method_entry"
  | .perform_double_click_action_chain => "log_method_entry"
  | .perform_right_click_action_chain => "log_method_entry"
  | .perform_click_and_hold_action_chain => "log_method_entry"
  | .perform_release_action_chain => "log_method_entry"
  | .perform_send_keys_action_chain => "log_method_entry"

/-- Running a public `BasePage` method against an abstract driver state
`st`: the first statement is the logger call named by
`bpFirstLoggerCall`; it precedes the `try` block, so an exception it
raises propagates and nothing else runs.  `rest` abstracts the whole
remainder of the method body (the `try` block and its handlers). -/
def runBPMethod {σ α : Type} (op : BPOp) (rest : σ → PyResult α × σ)
    (st : σ) : PyResult α × σ :=
  match loggerCall (bpFirstLoggerCall op) with
  | .exc e => (.exc e, st)
  | .ok _ => rest st

/-! ### Explicit waits and their timeouts

The method signatures with a `timeout` parameter are exactly
`find_element`, `find_elements`, `click`, `switch_to_iframe`,
`accept_alert`, `dismiss_alert`, `get_alert_text` and
`send_keys_to_alert`, each declared `timeout: int = 10`, and each body
passes the parameter straight to `WebDriverWait(self.driver, timeout)`.
`send_keys(locator, text)` has no such parameter; its wait happens
inside its `self.find_element(locator)` call, which supplies
`find_element`'s default. -/

/-- Whether the method's signature declares a `timeout` parameter. -/
def hasTimeoutParam : BPOp → Bool
  | .find_element => true
  | .find_elements => true
  | .click => true
  | .switch_to_iframe => true
  | .accept_alert => true
  | .dismiss_alert => true
  | .get_alert_text => true
  | .send_keys_to_alert => true
  | _ => false

/-- The declared default of the `timeout` parameter (`= 10` on every
signature that has one). -/
def opDefaultTimeout (op : BPOp) : Option Nat :=
  if hasTimeoutParam op then some 10 else none

/-- Python parameter binding for the `timeout` parameter: the call-site
argument when supplied, the signature default when omitted, nothing when
the method has no such parameter. -/
def boundTimeout (op : BPOp) (timeoutArg : Option Nat) : Option Nat :=
  match opDefaultTimeout op, timeoutArg with
  | some _, some t => some t
  | some d, none => some d
  | none, _ => none

/-- The duration passed to `WebDriverWait(self.driver, ...)` when the
operation runs with the given call-site `timeout` argument.  The eight
methods with a `timeout` parameter pass it directly; `send_keys` waits
through its internal `self.find_element(locator)` call, which omits the
argument, so `find_element`'s default applies.  The remaining methods
construct no `WebDriverWait` of their own (several reach one only
through an internal `self.find_element(locator)` call, which — exactly
as for `send_keys` — always uses the default). -/
def opWaitSeconds (op : BPOp) (timeoutArg : Option Nat) : Option Nat :=
  match op with
  | .find_element | .find_elements | .click | .switch_to_iframe
  | .accept_alert | .dismiss_alert | .get_alert_text | .send_keys_to_alert =>
    boundTimeout op timeoutArg
  | .send_keys => boundTimeout .find_element none
  | _ => none

end Sel

/-! ## Claim C1 -/

/-- C1: the claim states that each `CustomSeleniumWebDriver` operation
surfaces a caught Selenium exception to the caller instead of catching
it, logging and returning normally.  The code does the opposite, and
contradicts its own docstrings (`:raises NoSuchElementException:`,
`:raises ElementNotInteractableException:`, `:raises WebDriverException:`):
`get_element` returns `None` when `driver.find_element` raises
`NoSuchElementException` or any `WebDriverException`, and `click` /
`type_text` return normally when the element call raises
`ElementNotInteractableException` or any `WebDriverException`. -/
theorem C1_swallowed_not_raised :
    Sel.csw_get_element (α := Unit) (.exc .noSuchElementException) = .ok none ∧
    Sel.csw_get_element (α := Unit) (.exc .webDriverException) = .ok none ∧
    Sel.csw_click (α := Unit) (.ok ()) (some .elementNotInteractableException) = .normal ∧
    Sel.csw_click (α := Unit) (.ok ()) (some .webDriverException) = .normal ∧
    Sel.csw_type_text (α := Unit) (.ok ()) (some .elementNotInteractableException) = .normal ∧
    Sel.csw_type_text (α := Unit) (.ok ()) (some .webDriverException) = .normal := by
  decide

/-! ## Claim C4 -/

/-- C4: the claim states that constructing `ConfigLoader` on a
nonexistent path raises `FileNotFoundError`, and that
`get_specified_browser` on a configuration without a `browser` key
raises `KeyError` — matching the methods' own docstrings.  The code
instead raises `AttributeError` in both situations, before ever touching
the file or the dictionary: `__init__` calls `_load_config_file` before
assigning `self.logger`, and `_load_config_file` / `get_specified_browser`
begin with `self.logger.log_method_entry(...)`, a method the `Logger`
class does not define.  Evaluated here on an empty file system with the
default path, and on an instance state whose configuration lacks the
`browser` key. -/
theorem C4_attributeError_not_documented_kinds :
    Sel.configLoader_init "../config/config.json" (fun _ => none)
      = .exc .attributeError ∧
    Sel.configLoader_init "../config/config.json" (fun _ => none)
      ≠ .exc .fileNotFoundError ∧
    Sel.configLoader_get_specified_browser ⟨"../config/config.json", [], true⟩
      = .exc .attributeError ∧
    Sel.configLoader_get_specified_browser ⟨"../config/config.json", [], true⟩
      ≠ .exc .keyError := by
  refine ⟨rfl, fun h => ?_, rfl, fun h => ?_⟩
  · exact absurd (congrArg Sel.PyResult.excKind h) (by decide)
  · exact absurd (congrArg Sel.PyResult.excKind h) (by decide)

/-! ## Claim C5 -/

/-- C5: the claim states that on a valid configuration with
`browser_configurations.browser` and `browser_configurations.headless`,
the `ConfigReader` accessors return those values and raise `KeyError`
for each missing key.  In the code the accessors are unreachable:
`ConfigReader.__init__` calls `_get_abs_config_path` before assigning
`self.logger`, and that method's first statement is
`self.logger.info(...)`, so every construction of `ConfigReader` raises
`AttributeError` — for every file-system content, including the
documented shape (evaluated at the second conjunct's concrete
configuration).  On a hypothetical fully-initialized instance the
accessor logic itself does round-trip the values (third and fourth
conjuncts) and raises `KeyError` for a missing key (fifth conjunct). -/
theorem C5_constructor_always_raises :
    (∀ file : Option (List (String × Sel.Json)),
      Sel.configReader_init file = .exc .attributeError) ∧
    Sel.configReader_init
      (some [("browser_configurations",
        .obj [("browser", .str "chrome"), ("headless", .bool true)])])
      = .exc .attributeError ∧
    Sel.configReader_get_specified_browser
      ⟨[("browser_configurations",
        .obj [("browser", .str "chrome"), ("headless", .bool true)])], true⟩
      = .ok (.str "chrome") ∧
    Sel.configReader_get_headless_mode
      ⟨[("browser_configurations",
        .obj [("browser", .str "chrome"), ("headless", .bool true)])], true⟩
      = .ok (.bool true) ∧
    Sel.configReader_get_headless_mode
      ⟨[("browser_configurations", .obj [("browser", .str "chrome")])], true⟩
      = .exc .keyError := by
  refine ⟨fun file => ?_, rfl, rfl, rfl, rfl⟩
  cases file <;> rfl

/-! ## Claim C7 -/

/-- C7: the claim states that whenever `initialize_webdriver` returns a
driver session, the `driver` fixture calls `quit()` on it exactly once
during teardown, and that no `quit()` happens when initialization fails.
In the code the guarantee never materializes: the fixture's first
statement is `logger.log_method_entry('The Driver Fixture')`, and class
`Logger` defines no `log_method_entry`, so every execution of the
fixture raises `AttributeError` before the `try` block — no driver is
ever initialized or yielded, and `quit()` is called zero times, whatever
the initialization outcome and the test body would have done. -/
theorem C7_fixture_raises_before_init :
    ∀ (initResult : Sel.PyResult Nat) (testExc : Option Sel.ExcKind),
      Sel.driver_fixture initResult testExc = (.raised .attributeError, 0) :=
  fun _ _ => rfl

/-! ## Claim C10 -/

/-- C10: after any positive number of `Logger` constructions in one
process, the shared underlying logger holds exactly the two handlers
(one console handler, one file handler) installed by the first
construction: the `if not self.logger.handlers` guard makes handler
installation idempotent, so later constructions add nothing. -/
theorem C10_two_handlers_invariant (n : Nat) (h : 1 ≤ n) :
    Sel.handlersAfter n = [⟨.console, 0⟩, ⟨.logfile, 0⟩] := by
  induction n with
  | zero => exact absurd h (by decide)
  | succ m ih =>
    cases m with
    | zero => rfl
    | succ k =>
      have hm : 1 ≤ k + 1 := Nat.succ_le_succ (Nat.zero_le k)
      show Sel.logger_init_handlers (k + 1) (Sel.handlersAfter (k + 1)) = _
      rw [ih hm]
      rfl

/-- Witness for C10 at three constructions. -/
theorem C10_two_handlers_invariant_witness :
    Sel.handlersAfter 3 = [⟨.console, 0⟩, ⟨.logfile, 0⟩] :=
  C10_two_handlers_invariant 3 (by decide)

/-! ## Claim C3 -/

/-- C3: for every browser identifier whose lowercase form is `chrome`,
`firefox`, `edge`, `chromium` or `brave`, `initialize_webdriver` selects
the corresponding driver constructor branch; for every other identifier
it fails with a `KeyError` whose message states that the browser is not
supported (the unsupported-browser `KeyError` raised in
`_get_browser_options` is re-wrapped by that method's own
`except KeyError` handler, so the final message embeds the
`is not supported` text and the browser name).  The hypothesis is that
the configuration's `browser_options` dictionary has an entry for the
browser, as the documented configuration shape provides — without it
even a supported browser fails on the dictionary lookup. -/
theorem C3_browser_dispatch (s : String) (opts : List (String × List String))
    (hopts : (opts.lookup (Sel.pyLower s)).isSome = true) :
    (Sel.pyLower s = "chrome" → Sel.wdi_initializeFor s opts = .ok .chrome) ∧
    (Sel.pyLower s = "firefox" → Sel.wdi_initializeFor s opts = .ok .firefox) ∧
    (Sel.pyLower s = "edge" → Sel.wdi_initializeFor s opts = .ok .edge) ∧
    (Sel.pyLower s = "chromium" → Sel.wdi_initializeFor s opts = .ok .chromium) ∧
    (Sel.pyLower s = "brave" → Sel.wdi_initializeFor s opts = .ok .brave) ∧
    (Sel.pyLower s ∉ (["chrome", "firefox", "edge", "chromium", "brave"] : List String) →
      ∃ e : Sel.PyExcMsg, Sel.wdi_initializeFor s opts = .error e ∧
        e.kind = .keyError ∧
        " is not supported." ∈ e.msg ∧ Sel.pyLower s ∈ e.msg) := by
  obtain ⟨v, hv⟩ := Option.isSome_iff_exists.mp hopts
  refine ⟨?_, ?_, ?_, ?_, ?_, ?_⟩ <;> intro h
  · rw [h] at hv
    simp [Sel.wdi_initializeFor, Sel.wdi_browser, h,
      Sel.wdi_initialize_webdriver, Sel.wdi_get_browser_options, hv]
  · rw [h] at hv
    simp [Sel.wdi_initializeFor, Sel.wdi_browser, h,
      Sel.wdi_initialize_webdriver, Sel.wdi_get_browser_options, hv]
  · rw [h] at hv
    simp [Sel.wdi_initializeFor, Sel.wdi_browser, h,
      Sel.wdi_initialize_webdriver, Sel.wdi_get_browser_options, hv]
  · rw [h] at hv
    simp [Sel.wdi_initializeFor, Sel.wdi_browser, h,
      Sel.wdi_initialize_webdriver, Sel.wdi_get_browser_options, hv]
  · rw [h] at hv
    simp [Sel.wdi_initializeFor, Sel.wdi_browser, h,
      Sel.wdi_initialize_webdriver, Sel.wdi_get_browser_options, hv]
  · simp only [List.mem_cons, List.not_mem_nil, or_false] at h
    push_neg at h
    obtain ⟨h1, h2, h3, h4, h5⟩ := h
    refine ⟨⟨.keyError,
      ["The browser_options option wasn\x27t found in the config.json file. Error: ",
        "\x27", "The browser ", Sel.pyLower s, " is not supported.", "\x27"]⟩,
      ?_, rfl, by simp, by simp⟩
    simp [Sel.wdi_initializeFor, Sel.wdi_browser,
      Sel.wdi_initialize_webdriver, Sel.wdi_get_browser_options, hv,
      Sel.keyErrorStr,
      beq_eq_false_iff_ne.mpr h1, beq_eq_false_iff_ne.mpr h2,
      beq_eq_false_iff_ne.mpr h3, beq_eq_false_iff_ne.mpr h4,
      beq_eq_false_iff_ne.mpr h5]

/-- Witness for C3: the mixed-case identifier `Chrome`, with an options
entry for `chrome`, reaches the Chrome constructor branch. -/
theorem C3_browser_dispatch_witness :
    Sel.wdi_initializeFor "Chrome" [("chrome", [])] = .ok .chrome :=
  (C3_browser_dispatch "Chrome" [("chrome", [])] (by decide)).1 (by decide)

/-! ## Claim C2 -/

/-- C2 counterexample: the claim asserts that for every public `BasePage`
operation and every caught exception kind, the re-raised exception's
message includes the locator or value that was passed in.
`switch_to_window(handle)` refutes it: its `except NoSuchWindowException`
handler logs and re-raises `NoSuchWindowException`, but with the
constant message `The specified window didn\x27t exist or was closed.`,
which interpolates none of the method's parameters — in particular not
the `handle` that was passed in. -/
theorem C2_counterexample :
    ∃ h ∈ Sel.opHandlers .switch_to_window,
      h.caught = .noSuchWindowException ∧ h.logsError = true ∧
      h.raisedKind = .noSuchWindowException ∧
      ∀ a ∈ Sel.opSubjectArgs .switch_to_window, Sel.MsgPart.arg a ∉ h.raiseMsg := by
  decide

/-- C2 amended: every handler of every public `BasePage` operation logs
an error-level message and raises a new exception of the same kind as it
caught (or the generic `WebDriverException`), and its message
interpolates a locator/value parameter of the method, except for the
seven handlers in `subjectOmittingHandlers` (among them
`switch_to_window`'s `NoSuchWindowException` handler and
`switch_to_iframe`'s `TimeoutException` handler), whose messages omit
all such parameters.  In particular, `find_element`'s
`TimeoutException` handler raises a `TimeoutException` whose message
contains both the locator and the timeout. -/
theorem C2_amended_translation :
    (∀ op : Sel.BPOp, (Sel.opHandlers op).all (Sel.handlerOk op) = true) ∧
    (Sel.opHandlers .find_element).all (fun h =>
      h.caught != .timeoutException ||
      (h.raiseMsg.contains (.arg .locator) && h.raiseMsg.contains (.arg .timeout)))
      = true := by
  refine ⟨fun op => ?_, by decide⟩
  cases op <;> decide

/-! ## Claim C6 -/

/-- C6 counterexample: the claim asserts that the wait duration is
configurable at each call site via a per-operation timeout parameter,
listing `send_keys` among the covered operations — but the signature
`send_keys(self, locator, text)` declares no timeout parameter, and the
wait performed on its behalf (inside `self.find_element(locator)`) is
always `find_element`'s default of 10 seconds. -/
theorem C6_counterexample :
    Sel.hasTimeoutParam .send_keys = false ∧
    Sel.opWaitSeconds .send_keys none = some 10 := by
  decide

/-- C6 amended: the operations with an explicit wait of their own
(`find_element`, `find_elements`, `click`, `switch_to_iframe`,
`accept_alert`, `dismiss_alert`, `get_alert_text`,
`send_keys_to_alert`) declare a `timeout` parameter defaulting to 10
seconds and pass exactly the call-site value (or that default) to the
wait; `send_keys` declares none, and the waiting done on its behalf
always uses the 10-second default, whatever its call site does. -/
theorem C6_amended_wait_durations :
    (∀ op : Sel.BPOp, Sel.hasTimeoutParam op = true →
      Sel.opDefaultTimeout op = some 10 ∧
      Sel.opWaitSeconds op none = some 10 ∧
      ∀ t : Nat, Sel.opWaitSeconds op (some t) = some t) ∧
    (Sel.hasTimeoutParam .send_keys = false ∧
      ∀ t : Option Nat, Sel.opWaitSeconds .send_keys t = some 10) := by
  refine ⟨fun op hop => ?_, rfl, fun t => rfl⟩
  cases op <;>
    first
      | exact absurd hop (by decide)
      | exact ⟨rfl, rfl, fun t => rfl⟩

/-- Witness for C6 at `find_element` with an explicit 3-second timeout. -/
theorem C6_amended_wait_durations_witness :
    Sel.opWaitSeconds .find_element (some 3) = some 3 :=
  (C6_amended_wait_durations.1 .find_element (by decide)).2.2 3

/-! ## Claim C8 -/

/-- C8: the first statement of every public `BasePage` method is
`self.logger.log_method_entry(...)`; class `Logger` defines only
`debug`, `info`, `warning`, `error` and `critical`, so this call raises
`AttributeError` before the `try` block, and the method ends with the
driver state unchanged whatever the rest of the body would have done. -/
theorem C8_entry_log_raises_attributeError :
    ∀ (σ α : Type) (op : Sel.BPOp) (rest : σ → Sel.PyResult α × σ) (st : σ),
      Sel.runBPMethod op rest st = (.exc .attributeError, st) := by
  intro σ α op rest st
  cases op <;> rfl

/-! ## Claim C9 -/

/-- C9: in each of the four multi-select deselect methods, the
`InvalidArgumentException` raised inside the `try` block when the
dropdown does not support multiple selections is caught by the method's
own `except WebDriverException` handler (`InvalidArgumentException`
being a subclass of `WebDriverException`, and not of
`UnexpectedTagNameException`), so the exception reaching the caller is
the handler's generic `WebDriverException`, never an
`InvalidArgumentException`. -/
theorem C9_deselect_wraps_invalid_argument :
    (Sel.deselectOutcome .deselect_all_dropdown_options false
        = some .webDriverException ∧
      Sel.deselectOutcome .deselect_dropdown_by_index false
        = some .webDriverException ∧
      Sel.deselectOutcome .deselect_dropdown_by_value false
        = some .webDriverException ∧
      Sel.deselectOutcome .deselect_dropdown_by_visible_text false
        = some .webDriverException) ∧
    (Sel.deselectOutcome .deselect_all_dropdown_options false
        ≠ some .invalidArgumentException ∧
      Sel.deselectOutcome .deselect_dropdown_by_index false
        ≠ some .invalidArgumentException ∧
      Sel.deselectOutcome .deselect_dropdown_by_value false
        ≠ some .invalidArgumentException ∧
      Sel.deselectOutcome .deselect_dropdown_by_visible_text false
        ≠ some .invalidArgumentException) := by
  decide
